import Mathlib

/-!
Shallow embedding of the Cloudflare Worker API of `vite-react-dev-page`
(`src/worker/index.ts`) and of the front-end staleness classification
(`src/react-app/App.tsx`, `derivedUnityBadge`).

Modelling conventions:
* ISO-8601 timestamp strings are represented by their epoch-millisecond
  value as a `Nat`; `new Date().toISOString()` and `Date.now()` taken at
  the same instant are the same parameter `now`.  The front end compares
  times through `new Date(s).getTime()`, so this is the value the code
  actually computes with; an unparseable timestamp (`NaN`) is `none`.
* JS numbers that are only stored and copied, never computed with
  (`totalTodayHours`, `totalWeekHours`, `productiveStreak`), are `Int`.
* An optional JSON field is `Option _`; `none` covers both an absent key
  and a JSON `null` (the worker reads optional fields only through `??`,
  which treats the two alike).  The one exception is the update's
  `isHeartbeat` key, whose presence or absence matters for the object
  spread; there `none` is an absent key.
* The impure inputs of `mergeUnityStatus` — the current time and the
  generated activity id — are explicit parameters `now` and `newId`.
* `throw new HTTPException` becomes `Except.error` carrying the status
  and message; handlers return `Except HttpError _`.
-/

namespace DevPortal

/-- The allowed Unity states: `allowedUnityStates` in the worker. -/
def allowedUnityStates : List String := ["working", "break", "offline"]

/-- `UnityActivity` from the worker.  `state` is a runtime string (the TS
enum is erased at runtime). -/
structure UnityActivity where
  id : String
  state : String
  label : String
  timestamp : Nat
  deriving DecidableEq, Repr

/-- `UnityStatus` from the worker, plus `extraIsHeartbeat`: the runtime
object produced by the spread in `mergeUnityStatus` can carry an
`isHeartbeat` key that is not part of the declared TS type; we track it
explicitly (`none` = key absent). -/
structure UnityStatus where
  state : String
  currentTask : String
  activityType : String
  sceneName : String
  unityVersion : String
  isPlayMode : Bool
  totalTodayHours : Int
  totalWeekHours : Int
  productiveStreak : Int
  lastUpdated : Nat
  history : List UnityActivity
  extraIsHeartbeat : Option Bool
  deriving DecidableEq, Repr

/-- `UnityStatusUpdate` from the worker: the parsed JSON body of
`POST /api/unity-status`; every optional field defaults to absent. -/
structure UnityStatusUpdate where
  state : String
  currentTask : Option String := none
  activityType : Option String := none
  sceneName : Option String := none
  unityVersion : Option String := none
  isPlayMode : Option Bool := none
  totalTodayHours : Option Int := none
  totalWeekHours : Option Int := none
  productiveStreak : Option Int := none
  isHeartbeat : Option Bool := none
  deriving DecidableEq, Repr

/-- `defaultUnityStatus` from the worker (`new Date(0)` is epoch 0). -/
def defaultUnityStatus : UnityStatus where
  state := "offline"
  currentTask := "Awaiting editor activity"
  activityType := "Idle"
  sceneName := "-"
  unityVersion := "2022.3 LTS"
  isPlayMode := false
  totalTodayHours := 0
  totalWeekHours := 0
  productiveStreak := 0
  lastUpdated := 0
  history := []
  extraIsHeartbeat := none

/-- An HTTP error thrown with `HTTPException(status, message)`. -/
structure HttpError where
  status : Nat
  message : String
  deriving DecidableEq, Repr

/-- The literal three-character separator the worker puts between
`activityType` and `currentTask` in a history label.  The source file
contains the bytes `c3 a2 e2 82 ac e2 80 9d`, i.e. the characters
`â`, `€`, `”` — a mojibake rendering of an em dash, not an em dash. -/
def labelSeparator : String := "â€”"

/-- `mergeUnityStatus` from the worker.  `now` is the value of
`new Date().toISOString()` and `newId` the generated activity id.
The object spread `\x7b...previous, ...update, ...\x7d` is unfolded
field by field: `state` is always taken from the update, each optional
scalar falls back to the previous value through `??`, `lastUpdated` is
stamped with `now`, and the update's `isHeartbeat` key (when present)
survives into the result. -/
def mergeUnityStatus (now : Nat) (newId : String)
    (previous : UnityStatus) (update : UnityStatusUpdate) : UnityStatus :=
  let isHeartbeat := update.isHeartbeat.getD false
  let next : UnityStatus :=
    { state := update.state
      currentTask := update.currentTask.getD previous.currentTask
      activityType := update.activityType.getD previous.activityType
      sceneName := update.sceneName.getD previous.sceneName
      unityVersion := update.unityVersion.getD previous.unityVersion
      isPlayMode := update.isPlayMode.getD previous.isPlayMode
      totalTodayHours := update.totalTodayHours.getD previous.totalTodayHours
      totalWeekHours := update.totalWeekHours.getD previous.totalWeekHours
      productiveStreak := update.productiveStreak.getD previous.productiveStreak
      lastUpdated := now
      history := previous.history
      extraIsHeartbeat := update.isHeartbeat.orElse fun _ => previous.extraIsHeartbeat }
  if isHeartbeat then
    { next with history := previous.history }
  else
    let historyEntry : UnityActivity :=
      { id := newId
        state := next.state
        label := next.activityType ++ " " ++ labelSeparator ++ " " ++ next.currentTask
        timestamp := now }
    { next with history := (historyEntry :: previous.history).take 10 }

/-- `validateUnityPayload` from the worker: reject a state outside the
allowed set with HTTP 400, otherwise return the payload. -/
def validateUnityPayload (payload : UnityStatusUpdate) :
    Except HttpError UnityStatusUpdate :=
  if payload.state ∈ allowedUnityStates then
    Except.ok payload
  else
    Except.error { status := 400, message := "Invalid Unity status state" }

/-- The `POST /api/unity-status` handler: validate, read the stored
record (falling back to `defaultUnityStatus`), merge, and return the
merged record (which the handler also writes back and echoes as
`stored`).  `stored` is the record currently in the KV store or cache
(`none` if never written). -/
def postUnityStatus (now : Nat) (newId : String)
    (stored : Option UnityStatus) (payload : UnityStatusUpdate) :
    Except HttpError UnityStatus :=
  match validateUnityPayload payload with
  | Except.error e => Except.error e
  | Except.ok p =>
      Except.ok (mergeUnityStatus now newId (stored.getD defaultUnityStatus) p)

/-- The store content after a `POST /api/unity-status` request: the
merged record on success, the unchanged previous content when the
request was rejected before the write. -/
def storedAfterPost (now : Nat) (newId : String)
    (stored : Option UnityStatus) (payload : UnityStatusUpdate) :
    Option UnityStatus :=
  match postUnityStatus now newId stored payload with
  | Except.ok merged => some merged
  | Except.error _ => stored

/-- `author` inside `head_commit` of a GitHub push payload. -/
structure GitHubAuthor where
  name : Option String := none
  deriving DecidableEq, Repr

/-- `repository` of a GitHub push payload. -/
structure GitHubRepository where
  full_name : Option String := none
  html_url : Option String := none
  deriving DecidableEq, Repr

/-- `head_commit` of a GitHub push payload (`timestamp` under the
epoch-millisecond convention). -/
structure GitHubHeadCommit where
  id : Option String := none
  message : Option String := none
  timestamp : Option Nat := none
  url : Option String := none
  author : Option GitHubAuthor := none
  deriving DecidableEq, Repr

/-- `GitHubWebhookPayload` from the worker. -/
structure GitHubWebhookPayload where
  ref : Option String := none
  repository : Option GitHubRepository := none
  head_commit : Option GitHubHeadCommit := none
  deriving DecidableEq, Repr

/-- `LatestCommit` from the worker. -/
structure LatestCommit where
  id : String
  message : String
  author : String
  url : String
  repository : String
  committedAt : Nat
  branch : Option String
  deriving DecidableEq, Repr

/-- Character-level scan for `replaceFirst`: at each position, if `pat`
matches here, emit `repl` and the rest of the input; otherwise keep the
character and continue.  This is the first-occurrence semantics of JS
`String.prototype.replace` with a (non-empty) string pattern. -/
def replaceFirstAux (pat repl : List Char) : List Char → List Char
  | [] => []
  | c :: cs =>
      if pat.isPrefixOf (c :: cs) then repl ++ (c :: cs).drop pat.length
      else c :: replaceFirstAux pat repl cs

/-- JS `String.prototype.replace` with a string pattern: replace the
first occurrence of `pat` (non-empty here) in `s` by `repl`, leave `s`
unchanged when `pat` does not occur. -/
def replaceFirst (s pat repl : String) : String :=
  String.mk (replaceFirstAux pat.data repl.data s.data)

/-- The commit record built by the `POST /api/github-webhook` handler
once `head_commit` is present: each field with its `??` fallback chain,
`committedAt` falling back to the current time, `branch` as
`payload.ref?.replace("refs/heads/", "")`. -/
def normalizeCommit (now : Nat) (payload : GitHubWebhookPayload)
    (hc : GitHubHeadCommit) : LatestCommit where
  id := hc.id.getD "unknown"
  message := hc.message.getD "No commit message"
  author := ((hc.author.bind GitHubAuthor.name).getD "Unknown")
  url := ((hc.url.orElse fun _ => payload.repository.bind GitHubRepository.html_url).getD "")
  repository := ((payload.repository.bind GitHubRepository.full_name).getD "unknown")
  committedAt := hc.timestamp.getD now
  branch := payload.ref.map fun r => replaceFirst r "refs/heads/" ""

/-- The `POST /api/github-webhook` handler: 400 when the payload lacks a
`head_commit` (the falsy check `!payload?.head_commit`), otherwise the
normalized commit record that the handler stores. -/
def githubWebhook (now : Nat) (payload : GitHubWebhookPayload) :
    Except HttpError LatestCommit :=
  match payload.head_commit with
  | none =>
      Except.error { status := 400, message := "Missing head_commit in GitHub payload" }
  | some hc => Except.ok (normalizeCommit now payload hc)

/-- `NotificationBody` from the worker (`metadata` is an opaque optional
object; only its presence is kept). -/
structure NotificationBody where
  channel : Option String := none
  title : Option String := none
  message : Option String := none
  metadata : Option Unit := none
  deriving DecidableEq, Repr

/-- JS truthiness of an optional string: an absent key, `null`, and the
empty string are all falsy. -/
def jsTruthyStr (s : Option String) : Bool :=
  match s with
  | none => false
  | some v => !v.isEmpty

/-- The JSON body `\x7bdelivered, forwardedToAutomation\x7d` returned by
the notification relay. -/
structure RelayResponse where
  delivered : Bool
  forwardedToAutomation : Bool
  deriving DecidableEq, Repr

/-- The `POST /api/trigger-notification` handler.  `webhookUrl` is the
`N8N_WEBHOOK_URL` binding (checked for truthiness, so an empty string
counts as unconfigured); `fetchOk` is the `response.ok` of the single
outbound `fetch` when one is made.  The second component of the result
lists the outbound calls made (their target URLs). -/
def triggerNotification (webhookUrl : Option String) (fetchOk : Bool)
    (body : NotificationBody) :
    Except HttpError (RelayResponse × List String) :=
  if !jsTruthyStr body.channel || !jsTruthyStr body.message then
    Except.error { status := 400, message := "channel and message are required" }
  else
    match webhookUrl with
    | some u =>
        if u.isEmpty then
          Except.ok ({ delivered := true, forwardedToAutomation := false }, [])
        else
          Except.ok ({ delivered := true, forwardedToAutomation := fetchOk }, [u])
    | none => Except.ok ({ delivered := true, forwardedToAutomation := false }, [])

/-- The badge map `unityActivityBadges` of `App.tsx`; a key outside the
three states renders as the string `"undefined"` in the template
literal. -/
def unityActivityBadges (state : String) : String :=
  if state = "working" then "🟢 Working"
  else if state = "break" then "🟡 On a Break"
  else if state = "offline" then "⚫ Offline"
  else "undefined"

/-- The staleness test inside `derivedUnityBadge`:
`!Number.isFinite(updated) || now - updated > 10 * 60 * 1000`, where
`updated = new Date(lastUpdated).getTime()` (`none` for an unparseable
timestamp) and the subtraction is over JS numbers, hence `Int`. -/
def isStale (now : Nat) (updated : Option Nat) : Bool :=
  match updated with
  | none => true
  | some u => decide ((now : Int) - (u : Int) > 10 * 60 * 1000)

/-- `derivedUnityBadge` of `App.tsx` as a pure function of the stored
state, the parsed `lastUpdated`, and the current time. -/
def derivedUnityBadge (now : Nat) (state : String) (updated : Option Nat) :
    String :=
  let stale := isStale now updated
  let baseState := if stale then "offline" else state
  let badge := unityActivityBadges baseState
  let staleSuffix := if stale then " • last heartbeat >10m" else ""
  badge ++ staleSuffix

/-- A non-heartbeat update that sets only `state` (the payload
`\x7bstate: "working", isHeartbeat: false\x7d`). -/
def onlyWorkingEvent : UnityStatusUpdate :=
  { state := "working", isHeartbeat := some false }

/-- The `i`-th update of the eviction scenario: a non-heartbeat update
whose `currentTask` tags the update number. -/
def updateNum (i : Nat) : UnityStatusUpdate :=
  { state := "working", currentTask := some (toString i), isHeartbeat := some false }

/-- The record after `n` sequential non-heartbeat updates starting from
the default record; the `i`-th update is merged at time `i`. -/
def afterNUpdates : Nat → UnityStatus
  | 0 => defaultUnityStatus
  | n + 1 => mergeUnityStatus (n + 1) (toString (n + 1)) (afterNUpdates n) (updateNum (n + 1))

/-- The payload `\x7bstate: "working", currentTask: "Fix bug",
isHeartbeat: false\x7d` of the label scenario. -/
def fixBugUpdate : UnityStatusUpdate :=
  { state := "working", currentTask := some "Fix bug", isHeartbeat := some false }

/-- The label of the newest history entry stored after posting
`fixBugUpdate` against a fresh (empty) store at time 1000. -/
def fixBugHeadLabel : Option String :=
  (storedAfterPost 1000 "id0" none fixBugUpdate).bind fun st =>
    st.history.head?.map UnityActivity.label

/-- A GitHub push payload whose `head_commit` carries only `id`. -/
def onlyIdPayload (ref : Option String) (repo : Option GitHubRepository)
    (cid : String) : GitHubWebhookPayload :=
  { ref := ref, repository := repo, head_commit := some { id := some cid } }

/-- Replacing the first occurrence of a pattern in a string that starts
with that (non-empty) pattern removes exactly the leading copy. -/
theorem replaceFirstAux_append (p bs : List Char) (h : p ≠ []) :
    replaceFirstAux p [] (p ++ bs) = bs := by
  cases p with
  | nil => exact absurd rfl h
  | cons c cs =>
      have hpre : (c :: cs).isPrefixOf ((c :: cs) ++ bs) = true := by
        rw [List.isPrefixOf_iff_prefix]
        exact List.prefix_append _ _
      rw [List.cons_append]
      unfold replaceFirstAux
      rw [← List.cons_append, hpre]
      simp [List.drop_left]

/-- On a ref of the form `refs/heads/<branch>`, the worker's
`ref.replace("refs/heads/", "")` yields exactly `<branch>`. -/
theorem replaceFirst_strip_heads (bname : String) :
    replaceFirst ("refs/heads/" ++ bname) "refs/heads/" "" = bname := by
  unfold replaceFirst
  rw [String.data_append]
  rw [replaceFirstAux_append _ _ (by decide)]

end DevPortal

namespace DevPortal

/-- Claim C1 (amended): for every previous record and every update
treated as a non-heartbeat event, `mergeUnityStatus` returns a record
whose history length is the previous length plus one, capped at 10,
and whose new head entry has the post-merge `state`, the label
`activityType ++ " " ++ labelSeparator ++ " " ++ currentTask` built
from the post-merge `activityType` and `currentTask` (the separator
being the source's literal three-character mojibake sequence, not an
em dash), and the new record's `lastUpdated` as its timestamp. -/
theorem merge_event_appends_post_merge_entry :
    ∀ (now : Nat) (newId : String) (prev : UnityStatus) (update : UnityStatusUpdate),
      update.isHeartbeat.getD false = false →
      (mergeUnityStatus now newId prev update).history.length
          = min (prev.history.length + 1) 10
      ∧ (mergeUnityStatus now newId prev update).history.head?
          = some { id := newId
                   state := (mergeUnityStatus now newId prev update).state
                   label := (mergeUnityStatus now newId prev update).activityType
                            ++ " " ++ labelSeparator ++ " "
                            ++ (mergeUnityStatus now newId prev update).currentTask
                   timestamp := (mergeUnityStatus now newId prev update).lastUpdated }
      ∧ (mergeUnityStatus now newId prev update).state = update.state
      ∧ (mergeUnityStatus now newId prev update).activityType
          = update.activityType.getD prev.activityType
      ∧ (mergeUnityStatus now newId prev update).currentTask
          = update.currentTask.getD prev.currentTask
      ∧ (mergeUnityStatus now newId prev update).lastUpdated = now := by
  intro now newId prev update h
  refine ⟨?_, ?_, ?_, ?_, ?_, ?_⟩
  · simp [mergeUnityStatus, h, List.length_take]
    omega
  · simp only [mergeUnityStatus, h, Bool.false_eq_true, if_false]
    rw [show (10:Nat) = 9 + 1 from rfl]
    simp [List.take_succ_cons]
  · simp [mergeUnityStatus, h]
  · simp [mergeUnityStatus, h]
  · simp [mergeUnityStatus, h]
  · simp [mergeUnityStatus, h]

/-- Witness for C1: the amended statement instantiated at a concrete
non-heartbeat update against the default record. -/
theorem merge_event_appends_post_merge_entry_witness :
    (mergeUnityStatus 7 "w1" defaultUnityStatus onlyWorkingEvent).history.length
      = min (defaultUnityStatus.history.length + 1) 10 :=
  (merge_event_appends_post_merge_entry 7 "w1" defaultUnityStatus
    onlyWorkingEvent (by decide)).1

/-- Counterexample for C1 as stated: merging a concrete non-heartbeat
update into the default record produces a head entry whose label is NOT
`activityType ++ " — " ++ currentTask` with an em dash, because the
source file's separator is the mojibake sequence `labelSeparator`. -/
theorem merge_label_em_dash_counterexample :
    (mergeUnityStatus 1000 "id1" defaultUnityStatus onlyWorkingEvent).history.head?.map
        UnityActivity.label
      ≠ some ((mergeUnityStatus 1000 "id1" defaultUnityStatus onlyWorkingEvent).activityType
              ++ " — "
              ++ (mergeUnityStatus 1000 "id1" defaultUnityStatus onlyWorkingEvent).currentTask) := by
  decide

/-- Claim C2: merging preserves the bound `history.length ≤ 10`; and 11
sequential non-heartbeat updates starting from the default record leave
exactly 10 entries, the newest first, with the entry of the first
update (timestamp 1) evicted. -/
theorem merge_history_bounded_and_eviction :
    (∀ (now : Nat) (newId : String) (prev : UnityStatus) (update : UnityStatusUpdate),
        prev.history.length ≤ 10 →
        (mergeUnityStatus now newId prev update).history.length ≤ 10)
    ∧ (afterNUpdates 11).history.length = 10
    ∧ (afterNUpdates 11).history.map UnityActivity.timestamp
        = [11, 10, 9, 8, 7, 6, 5, 4, 3, 2] := by
  refine ⟨?_, by decide, by decide⟩
  intro now newId prev update h
  unfold mergeUnityStatus
  cases hb : update.isHeartbeat.getD false
  · simp [hb, List.length_take]
  · simp [hb]
    omega

/-- Witness for C2: the invariant applied to the default record and a
concrete update. -/
theorem merge_history_bounded_and_eviction_witness :
    (mergeUnityStatus 1 "w" defaultUnityStatus (updateNum 1)).history.length ≤ 10 :=
  merge_history_bounded_and_eviction.1 1 "w" defaultUnityStatus (updateNum 1) (by decide)

/-- Claim C3: a heartbeat update leaves `history` unchanged, and when
the merge time is strictly later than the previous `lastUpdated` (the
real-clock situation) the merged `lastUpdated` strictly advances. -/
theorem heartbeat_preserves_history_advances_lastUpdated :
    ∀ (now : Nat) (newId : String) (prev : UnityStatus) (update : UnityStatusUpdate),
      update.isHeartbeat = some true →
      prev.lastUpdated < now →
      (mergeUnityStatus now newId prev update).history = prev.history
      ∧ prev.lastUpdated < (mergeUnityStatus now newId prev update).lastUpdated := by
  intro now newId prev update h hlt
  simp [mergeUnityStatus, h]
  exact hlt

/-- Witness for C3: a concrete heartbeat against the default record. -/
theorem heartbeat_preserves_history_advances_lastUpdated_witness :
    (mergeUnityStatus 5 "h1" defaultUnityStatus
        { state := "working", isHeartbeat := some true }).history
      = defaultUnityStatus.history
    ∧ defaultUnityStatus.lastUpdated
        < (mergeUnityStatus 5 "h1" defaultUnityStatus
            { state := "working", isHeartbeat := some true }).lastUpdated :=
  heartbeat_preserves_history_advances_lastUpdated 5 "h1" defaultUnityStatus
    { state := "working", isHeartbeat := some true } rfl (by decide)

/-- Claim C4: merging an update that sets only `state` leaves every
scalar field other than `state` and `lastUpdated` equal to the previous
record's value. -/
theorem merge_only_state_preserves_other_scalars :
    ∀ (now : Nat) (newId : String) (prev : UnityStatus) (s : String),
      ((mergeUnityStatus now newId prev { state := s }).currentTask,
       (mergeUnityStatus now newId prev { state := s }).activityType,
       (mergeUnityStatus now newId prev { state := s }).sceneName,
       (mergeUnityStatus now newId prev { state := s }).unityVersion,
       (mergeUnityStatus now newId prev { state := s }).isPlayMode,
       (mergeUnityStatus now newId prev { state := s }).totalTodayHours,
       (mergeUnityStatus now newId prev { state := s }).totalWeekHours,
       (mergeUnityStatus now newId prev { state := s }).productiveStreak)
      = (prev.currentTask, prev.activityType, prev.sceneName, prev.unityVersion,
         prev.isPlayMode, prev.totalTodayHours, prev.totalWeekHours,
         prev.productiveStreak) := by
  intro now newId prev s
  simp [mergeUnityStatus]

/-- Claim C5: a payload whose `state` is outside the allowed set makes
`POST /api/unity-status` fail with the 400 validation error before any
merge, and the stored record is unchanged by the failed request. -/
theorem invalid_state_rejected_before_merge :
    ∀ (now : Nat) (newId : String) (stored : Option UnityStatus)
      (payload : UnityStatusUpdate),
      payload.state ∉ allowedUnityStates →
      postUnityStatus now newId stored payload
          = Except.error { status := 400, message := "Invalid Unity status state" }
      ∧ storedAfterPost now newId stored payload = stored := by
  intro now newId stored payload h
  simp [postUnityStatus, storedAfterPost, validateUnityPayload, h]

/-- Witness for C5: the state `"idle"` is rejected and the (empty)
store stays empty. -/
theorem invalid_state_rejected_before_merge_witness :
    postUnityStatus 3 "x" none { state := "idle" }
        = Except.error { status := 400, message := "Invalid Unity status state" }
    ∧ storedAfterPost 3 "x" none { state := "idle" } = none :=
  invalid_state_rejected_before_merge 3 "x" none { state := "idle" } (by decide)

/-- Claim C6: posting `fixBugUpdate` against a fresh default record
stores a head entry labelled with the mojibake separator, so the
comparison of `history[0].label` with `"Idle — Fix bug"` (em dash) is
false, while `activityType` does default to the previous `"Idle"` and
`currentTask` to the update's `"Fix bug"`. -/
theorem post_fix_bug_label_comparison_false :
    fixBugHeadLabel = some ("Idle " ++ labelSeparator ++ " Fix bug")
    ∧ fixBugHeadLabel ≠ some "Idle — Fix bug"
    ∧ (storedAfterPost 1000 "id0" none fixBugUpdate).map UnityStatus.activityType
        = some "Idle"
    ∧ (storedAfterPost 1000 "id0" none fixBugUpdate).map UnityStatus.currentTask
        = some "Fix bug" := by
  refine ⟨by decide, by decide, by decide, by decide⟩

/-- Claim C7: `POST /api/github-webhook` fails with the 400 error
exactly when `head_commit` is absent; for a payload whose `head_commit`
has only `id`, every other field takes its documented fallback
(`message`, `author`, `url` falling back to the repository URL and then
`""`, `committedAt` the current time), `branch` is absent when `ref` is
absent, and a ref of the form `refs/heads/<branch>` yields exactly
`<branch>`. -/
theorem github_webhook_normalization :
    (∀ (now : Nat) (p : GitHubWebhookPayload),
        (githubWebhook now p
            = Except.error { status := 400, message := "Missing head_commit in GitHub payload" })
          ↔ p.head_commit = none)
    ∧ (∀ (now : Nat) (repo : Option GitHubRepository) (cid : String),
        githubWebhook now (onlyIdPayload none repo cid)
          = Except.ok { id := cid, message := "No commit message", author := "Unknown",
                        url := (repo.bind GitHubRepository.html_url).getD "",
                        repository := (repo.bind GitHubRepository.full_name).getD "unknown",
                        committedAt := now, branch := none })
    ∧ (∀ (now : Nat) (repo : Option GitHubRepository) (cid bname : String),
        githubWebhook now (onlyIdPayload (some ("refs/heads/" ++ bname)) repo cid)
          = Except.ok { id := cid, message := "No commit message", author := "Unknown",
                        url := (repo.bind GitHubRepository.html_url).getD "",
                        repository := (repo.bind GitHubRepository.full_name).getD "unknown",
                        committedAt := now, branch := some bname }) := by
  refine ⟨?_, ?_, ?_⟩
  · intro now p
    cases hp : p.head_commit <;> simp [githubWebhook, hp]
  · intro now repo cid
    simp [githubWebhook, onlyIdPayload, normalizeCommit, Option.orElse]
  · intro now repo cid bname
    simp [githubWebhook, onlyIdPayload, normalizeCommit, Option.orElse,
          replaceFirst_strip_heads]

/-- Witness for C7: a concrete payload without `head_commit` is
rejected with 400. -/
theorem github_webhook_normalization_witness :
    githubWebhook 2 { head_commit := none }
      = Except.error { status := 400, message := "Missing head_commit in GitHub payload" } :=
  (github_webhook_normalization.1 2 { head_commit := none }).mpr rfl

/-- Claim C8 (amended): for payloads whose `channel` and `message` are
present and non-empty (JS-truthy), the relay reports `delivered: true`;
with no webhook URL configured (absent or empty) it makes no outbound
call and reports `forwardedToAutomation: false`; with a configured URL
it makes exactly one call and reports the call's success flag, never
an error. -/
theorem relay_truthy_payload_behavior :
    (∀ (fetchOk : Bool) (body : NotificationBody) (ch msg : String),
        body.channel = some ch → ch ≠ "" → body.message = some msg → msg ≠ "" →
        triggerNotification none fetchOk body
          = Except.ok ({ delivered := true, forwardedToAutomation := false }, []))
    ∧ (∀ (fetchOk : Bool) (body : NotificationBody) (ch msg : String),
        body.channel = some ch → ch ≠ "" → body.message = some msg → msg ≠ "" →
        triggerNotification (some "") fetchOk body
          = Except.ok ({ delivered := true, forwardedToAutomation := false }, []))
    ∧ (∀ (u : String) (fetchOk : Bool) (body : NotificationBody) (ch msg : String),
        u ≠ "" → body.channel = some ch → ch ≠ "" → body.message = some msg → msg ≠ "" →
        triggerNotification (some u) fetchOk body
          = Except.ok ({ delivered := true, forwardedToAutomation := fetchOk }, [u])) := by
  refine ⟨?_, ?_, ?_⟩
  · intro fetchOk body ch msg hch hchne hmsg hmsgne
    have h1 : ch.isEmpty = false := by
      rw [Bool.eq_false_iff]
      intro hx
      exact hchne ((String.isEmpty_iff ch).mp hx)
    have h2 : msg.isEmpty = false := by
      rw [Bool.eq_false_iff]
      intro hx
      exact hmsgne ((String.isEmpty_iff msg).mp hx)
    simp [triggerNotification, jsTruthyStr, hch, hmsg, h1, h2]
  · intro fetchOk body ch msg hch hchne hmsg hmsgne
    have h1 : ch.isEmpty = false := by
      rw [Bool.eq_false_iff]
      intro hx
      exact hchne ((String.isEmpty_iff ch).mp hx)
    have h2 : msg.isEmpty = false := by
      rw [Bool.eq_false_iff]
      intro hx
      exact hmsgne ((String.isEmpty_iff msg).mp hx)
    simp [triggerNotification, jsTruthyStr, hch, hmsg, h1, h2]
    rfl
  · intro u fetchOk body ch msg hu hch hchne hmsg hmsgne
    have h1 : ch.isEmpty = false := by
      rw [Bool.eq_false_iff]
      intro hx
      exact hchne ((String.isEmpty_iff ch).mp hx)
    have h2 : msg.isEmpty = false := by
      rw [Bool.eq_false_iff]
      intro hx
      exact hmsgne ((String.isEmpty_iff msg).mp hx)
    have h3 : u.isEmpty = false := by
      rw [Bool.eq_false_iff]
      intro hx
      exact hu ((String.isEmpty_iff u).mp hx)
    simp [triggerNotification, jsTruthyStr, hch, hmsg, h1, h2, h3]

/-- Witness for C8: a concrete truthy payload with a configured URL and
a failed outbound call still returns 200 with `delivered: true` and
`forwardedToAutomation: false`. -/
theorem relay_truthy_payload_behavior_witness :
    triggerNotification (some "https://hooks.example") false
        { channel := some "discord", message := some "hi" }
      = Except.ok ({ delivered := true, forwardedToAutomation := false },
                   ["https://hooks.example"]) :=
  relay_truthy_payload_behavior.2.2 "https://hooks.example" false
    { channel := some "discord", message := some "hi" } "discord" "hi"
    (by decide) rfl (by decide) rfl (by decide)

/-- Counterexample for C8 as stated: a payload whose `channel` is
present but the empty string (and whose `message` is present and
non-empty) is rejected with 400 by the falsy check, so the relay does
not respond `delivered: true` for every payload with both fields
present. -/
theorem relay_present_empty_channel_counterexample :
    triggerNotification none true { channel := some "", message := some "hello" }
      = Except.error { status := 400, message := "channel and message are required" } := by
  rfl

/-- Claim C9: the staleness test is stale exactly when the elapsed time
`now - lastUpdated` exceeds 10 minutes (600000 ms); a stale record is
displayed as the offline badge with the heartbeat qualifier regardless
of the stored state, a fresh one as its own state's badge; a record 11
minutes old is stale and shown offline, one 9 minutes old is not. -/
theorem staleness_classification :
    (∀ (now u : Nat),
        isStale now (some u) = true ↔ (now : Int) - (u : Int) > 10 * 60 * 1000)
    ∧ (∀ (now : Nat) (st : String) (upd : Option Nat),
        isStale now upd = true →
        derivedUnityBadge now st upd = "⚫ Offline • last heartbeat >10m")
    ∧ (∀ (now : Nat) (st : String) (u : Nat),
        isStale now (some u) = false →
        derivedUnityBadge now st (some u) = unityActivityBadges st)
    ∧ isStale (11 * 60 * 1000) (some 0) = true
    ∧ derivedUnityBadge (11 * 60 * 1000) "working" (some 0)
        = "⚫ Offline • last heartbeat >10m"
    ∧ isStale (9 * 60 * 1000) (some 0) = false
    ∧ derivedUnityBadge (9 * 60 * 1000) "working" (some 0) = "🟢 Working" := by
  refine ⟨?_, ?_, ?_, by decide, by decide, by decide, by decide⟩
  · intro now u
    simp [isStale]
  · intro now st upd h
    simp [derivedUnityBadge, h, unityActivityBadges]
  · intro now st u h
    simp [derivedUnityBadge, h]

/-- Witness for C9: the two conditional parts applied at concrete
times. -/
theorem staleness_classification_witness :
    derivedUnityBadge 700000 "break" (some 0) = "⚫ Offline • last heartbeat >10m"
    ∧ derivedUnityBadge 0 "break" (some 0) = unityActivityBadges "break" :=
  ⟨staleness_classification.2.1 700000 "break" (some 0) (by decide),
   staleness_classification.2.2.1 0 "break" 0 (by decide)⟩

/-- Claim C10: when the update carries an `isHeartbeat` key, the object
spread copies it into the merged record (an extra field outside the
declared `UnityStatus` type), and the record persisted by
`POST /api/unity-status` carries it too. -/
theorem merge_carries_update_heartbeat_flag :
    (∀ (now : Nat) (newId : String) (prev : UnityStatus) (update : UnityStatusUpdate)
        (b : Bool),
        update.isHeartbeat = some b →
        (mergeUnityStatus now newId prev update).extraIsHeartbeat = some b)
    ∧ (∀ (now : Nat) (newId : String) (stored : Option UnityStatus)
        (payload : UnityStatusUpdate) (b : Bool),
        payload.isHeartbeat = some b →
        payload.state ∈ allowedUnityStates →
        (storedAfterPost now newId stored payload).map UnityStatus.extraIsHeartbeat
          = some (some b)) := by
  constructor
  · intro now newId prev update b h
    cases b <;> simp [mergeUnityStatus, h, Option.orElse]
  · intro now newId stored payload b h hs
    cases b <;>
      simp [storedAfterPost, postUnityStatus, validateUnityPayload, hs,
            mergeUnityStatus, h, Option.orElse]

/-- Witness for C10: a concrete heartbeat update leaves its flag in the
merged and in the stored record. -/
theorem merge_carries_update_heartbeat_flag_witness :
    (mergeUnityStatus 4 "z" defaultUnityStatus
        { state := "break", isHeartbeat := some true }).extraIsHeartbeat = some true
    ∧ (storedAfterPost 4 "z" none
        { state := "break", isHeartbeat := some true }).map UnityStatus.extraIsHeartbeat
      = some (some true) :=
  ⟨merge_carries_update_heartbeat_flag.1 4 "z" defaultUnityStatus
      { state := "break", isHeartbeat := some true } true rfl,
   merge_carries_update_heartbeat_flag.2 4 "z" none
      { state := "break", isHeartbeat := some true } true rfl (by decide)⟩

end DevPortal
